import Mathlib

/-!
Shallow embedding of `src/monitoring/compliance_scorer.py` (class
`ComplianceScorer`), the scoring engine of the repository-compliance
system.  Scores are modelled as exact rationals (`ℚ`); status, trend,
compliance-level and grade values are the source's string literals;
timestamps (`datetime.now()`) are an explicit `Nat` parameter so that
their influence can be reasoned about; the recommendation strings are
modelled as tags carrying exactly the data interpolated into them.
-/

namespace ComplianceScorer

/-- The `HealthCategory` enum from the source. -/
inductive HealthCategory where
  | structural
  | content
  | process
  | security
  | evolution
deriving DecidableEq

/-- One threshold table (`thresholds` dict of a metric definition). -/
structure Thresholds where
  excellent : ℚ
  good : ℚ
  fair : ℚ
  poor : ℚ
  critical : ℚ
deriving DecidableEq

/-- One entry of the `_load_metric_definitions` dict.  The `components`
sub-weights are configuration data the engine never reads numerically. -/
structure MetricDef where
  name : String
  category : HealthCategory
  weight : ℚ
  components : List (String × ℚ)
  thresholds : Thresholds
deriving DecidableEq

/-- The `"structural_health"` entry of `_load_metric_definitions`. -/
def structuralHealthDef : MetricDef :=
  { name := "structural_health"
    category := .structural
    weight := 25/100
    components := [("directory_compliance", 4/10), ("file_presence", 3/10),
                   ("naming_conventions", 2/10), ("organization_clarity", 1/10)]
    thresholds := { excellent := 95/100, good := 85/100, fair := 70/100,
                    poor := 50/100, critical := 30/100 } }

/-- The `"content_health"` entry of `_load_metric_definitions`. -/
def contentHealthDef : MetricDef :=
  { name := "content_health"
    category := .content
    weight := 25/100
    components := [("documentation_completeness", 35/100), ("fcm_model_compliance", 30/100),
                   ("manifest_validity", 20/100), ("content_quality", 15/100)]
    thresholds := { excellent := 90/100, good := 80/100, fair := 65/100,
                    poor := 45/100, critical := 25/100 } }

/-- The `"process_health"` entry of `_load_metric_definitions`. -/
def processHealthDef : MetricDef :=
  { name := "process_health"
    category := .process
    weight := 20/100
    components := [("automation_presence", 4/10), ("validation_integration", 3/10),
                   ("ci_cd_effectiveness", 2/10), ("workflow_optimization", 1/10)]
    thresholds := { excellent := 85/100, good := 70/100, fair := 55/100,
                    poor := 35/100, critical := 20/100 } }

/-- The `"security_health"` entry of `_load_metric_definitions`. -/
def securityHealthDef : MetricDef :=
  { name := "security_health"
    category := .security
    weight := 15/100
    components := [("security_policy", 4/10), ("dependency_scanning", 3/10),
                   ("access_control", 2/10), ("vulnerability_management", 1/10)]
    thresholds := { excellent := 90/100, good := 75/100, fair := 60/100,
                    poor := 40/100, critical := 20/100 } }

/-- The `"evolution_health"` entry of `_load_metric_definitions`. -/
def evolutionHealthDef : MetricDef :=
  { name := "evolution_health"
    category := .evolution
    weight := 15/100
    components := [("change_frequency", 3/10), ("improvement_trend", 3/10),
                   ("adaptation_capability", 2/10), ("innovation_indicators", 2/10)]
    thresholds := { excellent := 80/100, good := 65/100, fair := 50/100,
                    poor := 35/100, critical := 20/100 } }

/-- Embeds `_load_metric_definitions`, in the insertion order of the source dict. -/
def metricDefinitions : List MetricDef :=
  [structuralHealthDef, contentHealthDef, processHealthDef,
   securityHealthDef, evolutionHealthDef]

/-- The `validation_result` input: `validation_result.get("health_metrics", {})`
may be absent (`none`) or any string-keyed mapping of floats, modelled as an
association list (first binding wins, as in a Python dict read). -/
structure ValidationResult where
  health_metrics : Option (List (String × ℚ))
deriving DecidableEq

/-- Python `dict.get(key, default)` on an association list. -/
def lookupD (m : List (String × ℚ)) (key : String) (default : ℚ) : ℚ :=
  match m.find? (fun kv => kv.1 = key) with
  | some kv => kv.2
  | none => default

/-- Python `dict.get(key, default)` for string-valued mappings. -/
def lookupStrD (m : List (String × String)) (key : String) (default : String) : String :=
  match m.find? (fun kv => kv.1 = key) with
  | some kv => kv.2
  | none => default

/-- The dict returned by `_extract_base_metrics`: it always carries exactly
these five keys, in this insertion order. -/
structure BaseMetrics where
  structural_health : ℚ
  content_health : ℚ
  process_health : ℚ
  security_health : ℚ
  overall_health : ℚ
deriving DecidableEq

/-- Embeds `_extract_base_metrics`: each key read from the `health_metrics`
mapping with default `0.0` (and the whole mapping defaults to `{}`). -/
def extractBaseMetrics (vr : ValidationResult) : BaseMetrics :=
  let hm := vr.health_metrics.getD []
  { structural_health := lookupD hm "structural_health" 0
    content_health := lookupD hm "content_health" 0
    process_health := lookupD hm "process_health" 0
    security_health := lookupD hm "security_health" 0
    overall_health := lookupD hm "overall_health" 0 }

/-- Python `base_metrics.values()`, in insertion order. -/
def BaseMetrics.values (b : BaseMetrics) : List ℚ :=
  [b.structural_health, b.content_health, b.process_health,
   b.security_health, b.overall_health]

/-- Python `base_metrics[name]` and the `name in base_metrics` membership probe. -/
def BaseMetrics.find? (b : BaseMetrics) (name : String) : Option ℚ :=
  if name = "structural_health" then some b.structural_health
  else if name = "content_health" then some b.content_health
  else if name = "process_health" then some b.process_health
  else if name = "security_health" then some b.security_health
  else if name = "overall_health" then some b.overall_health
  else none

/-- Embeds `_calculate_evolution_health`.  `base_metrics` is the five-key dict
produced by `_extract_base_metrics`, so it is never empty: the
`if base_metrics else 0.5` guard of the source is dead and the average is
always taken over the five stored values (len = 5). -/
def calculateEvolutionHealth (b : BaseMetrics) : ℚ :=
  let avg_health := b.values.sum / 5
  let evolution_factor := 8/10 + avg_health * (2/10)
  min 1 evolution_factor

/-- Embeds `_calculate_category_score`: base score verbatim from `base_metrics`
(default `0.5` for a name not among the five keys), except that
`"evolution_health"` is recomputed by `_calculate_evolution_health`. -/
def calculateCategoryScore (category_name : String) (b : BaseMetrics) : ℚ :=
  let base_score := (b.find? category_name).getD (1/2)
  if category_name = "evolution_health" then calculateEvolutionHealth b
  else base_score

/-- Embeds `_determine_status`: first threshold met, iterating
excellent → good → fair → poor, else `"critical"`. -/
def determineStatus (score : ℚ) (t : Thresholds) : String :=
  if t.excellent ≤ score then "excellent"
  else if t.good ≤ score then "good"
  else if t.fair ≤ score then "fair"
  else if t.poor ≤ score then "poor"
  else "critical"

/-- Embeds `_determine_compliance_level`. -/
def determineComplianceLevel (overall_score : ℚ) : String :=
  if 90/100 ≤ overall_score then "exemplary"
  else if 75/100 ≤ overall_score then "secure"
  else if 60/100 ≤ overall_score then "tested"
  else if 45/100 ≤ overall_score then "documented"
  else if 30/100 ≤ overall_score then "structured"
  else "basic"

/-- Embeds `_calculate_health_grade`. -/
def calculateHealthGrade (overall_score : ℚ) : String :=
  if 95/100 ≤ overall_score then "A+"
  else if 90/100 ≤ overall_score then "A"
  else if 85/100 ≤ overall_score then "A-"
  else if 80/100 ≤ overall_score then "B+"
  else if 75/100 ≤ overall_score then "B"
  else if 70/100 ≤ overall_score then "B-"
  else if 65/100 ≤ overall_score then "C+"
  else if 60/100 ≤ overall_score then "C"
  else if 55/100 ≤ overall_score then "C-"
  else if 50/100 ≤ overall_score then "D+"
  else if 45/100 ≤ overall_score then "D"
  else "F"

/-- A `HealthMetric` dataclass instance.  `last_updated` is the
`datetime.now()` timestamp, abstracted to a `Nat`. -/
structure HealthMetric where
  name : String
  category : HealthCategory
  value : ℚ
  weight : ℚ
  status : String
  trend : String
  last_updated : Nat
deriving DecidableEq

/-- A recommendation string, modelled as a tag carrying the data that the
source interpolates into the corresponding f-string:
critical / poor carry the metric name and its score, declining carries
the metric name, and the four global advisories carry nothing. -/
inductive Recommendation where
  | criticalAttention (name : String) (value : ℚ)
  | belowThreshold (name : String) (value : ℚ)
  | decliningInvestigate (name : String)
  | runRemediationTools
  | reviewBestPractices
  | scheduleComprehensiveReview
  | shareAsExample
deriving DecidableEq

/-- The `ComplianceScore` dataclass. -/
structure ComplianceScore where
  overall_score : ℚ
  category_scores : List (String × ℚ)
  metrics : List HealthMetric
  compliance_level : String
  health_grade : String
  trend_analysis : List (String × String)
  recommendations : List Recommendation
deriving DecidableEq

/-- One entry of the `historical_data` list (the persisted snapshot shape:
`_save_to_history` writes these fields; `_analyze_trends` reads
`"overall_score"` and `"category_scores"`). -/
structure HistoryEntry where
  timestamp : Nat
  overall_score : ℚ
  compliance_level : String
  health_grade : String
  category_scores : List (String × ℚ)
  trend_analysis : List (String × String)
deriving DecidableEq

/-- Python `l[-n:]`. -/
def takeLast {α : Type} (n : Nat) (l : List α) : List α :=
  l.drop (l.length - n)

/-- Embeds `_analyze_trends`.  Returns the trends dict in insertion order:
`"overall"` first, then one key per metric definition.  List indexing
`recent_scores[0]` / `recent_scores[-1]` is only reached when the list has
at least 2 elements, so defaulted head/last reads are faithful. -/
def analyzeTrends (historical_data : List HistoryEntry) : List (String × String) :=
  if historical_data.length < 2 then [("overall", "insufficient_data")]
  else
    let recent_scores := (takeLast 5 historical_data).map (fun e => e.overall_score)
    let overallTrend :=
      if 2 ≤ recent_scores.length then
        [("overall",
          if recent_scores.headD 0 * (105/100) < recent_scores.getLastD 0 then "improving"
          else if recent_scores.getLastD 0 < recent_scores.headD 0 * (95/100) then "declining"
          else "stable")]
      else []
    let categoryTrends := metricDefinitions.filterMap (fun d =>
      let category_scores := (takeLast 3 historical_data).map
        (fun e => lookupD e.category_scores d.name (1/2))
      if 2 ≤ category_scores.length then
        some (d.name,
          if category_scores.headD 0 < category_scores.getLastD 0 then "improving"
          else if category_scores.getLastD 0 < category_scores.headD 0 then "declining"
          else "stable")
      else none)
    overallTrend ++ categoryTrends

/-- Embeds `_adjust_score_for_trends`: multiplies `overall_score` by 1.02 / 0.98
on an improving / declining overall trend (clamped to [0, 1]), then
back-fills every metric's `trend` field from the trends dict. -/
def adjustScoreForTrends (score : ComplianceScore) : ComplianceScore :=
  let trend := lookupStrD score.trend_analysis "overall" "stable"
  let newOverall :=
    if trend = "improving" then min 1 (score.overall_score * (102/100))
    else if trend = "declining" then max 0 (score.overall_score * (98/100))
    else score.overall_score
  { score with
    overall_score := newOverall
    metrics := score.metrics.map (fun m =>
      { m with trend := lookupStrD score.trend_analysis m.name "stable" }) }

/-- The per-metric rule body of `_generate_recommendations`: an
if/elif/elif chain, so at most one advisory is emitted per metric. -/
def metricRecommendations (m : HealthMetric) : List Recommendation :=
  if m.status = "critical" then [.criticalAttention m.name m.value]
  else if m.status = "poor" then [.belowThreshold m.name m.value]
  else if m.trend = "declining" then [.decliningInvestigate m.name]
  else []

/-- Embeds `_generate_recommendations`: the per-metric pass followed by the
global rules on overall score and grade, appended in source order. -/
def generateRecommendations (score : ComplianceScore) : List Recommendation :=
  let perMetric := score.metrics.flatMap metricRecommendations
  let afterOverall :=
    if score.overall_score < 1/2 then
      perMetric ++ [.runRemediationTools, .reviewBestPractices]
    else perMetric
  let afterGrade :=
    if score.health_grade = "D" ∨ score.health_grade = "F" then
      afterOverall ++ [.scheduleComprehensiveReview]
    else afterOverall
  if 85/100 < score.overall_score then afterGrade ++ [.shareAsExample]
  else afterGrade

/-- Embeds `_save_to_history` as the pure transformation it applies to the
stored list: append the new entry, then keep only the last 100. -/
def saveToHistory (history : List HistoryEntry) (entry : HistoryEntry) :
    List HistoryEntry :=
  let appended := history ++ [entry]
  takeLast 100 appended

/-- The weighted overall score of `calculate_compliance_score` (the
`sum(...)` over metric definitions at lines 192–195). -/
def overallScore (b : BaseMetrics) : ℚ :=
  (metricDefinitions.map (fun d => calculateCategoryScore d.name b * d.weight)).sum

/-- Embeds `calculate_compliance_score` (the returned `ComplianceScore`; the
history-file side effect is modelled separately by `saveToHistory`).
`now` is the `datetime.now()` of the run; `historical_data = []` covers
both Python's `None` default and an empty list (both falsy). -/
def calculateComplianceScore (now : Nat) (validation_result : ValidationResult)
    (historical_data : List HistoryEntry) : ComplianceScore :=
  let base_metrics := extractBaseMetrics validation_result
  let category_scores := metricDefinitions.map
    (fun d => (d.name, calculateCategoryScore d.name base_metrics))
  let metrics := metricDefinitions.map (fun d =>
    { name := d.name
      category := d.category
      value := calculateCategoryScore d.name base_metrics
      weight := d.weight
      status := determineStatus (calculateCategoryScore d.name base_metrics) d.thresholds
      trend := "stable"
      last_updated := now : HealthMetric })
  let overall := overallScore base_metrics
  let score1 : ComplianceScore :=
    { overall_score := overall
      category_scores := category_scores
      metrics := metrics
      compliance_level := determineComplianceLevel overall
      health_grade := calculateHealthGrade overall
      trend_analysis := []
      recommendations := [] }
  let score2 :=
    match historical_data with
    | [] => score1
    | _ :: _ =>
      adjustScoreForTrends { score1 with trend_analysis := analyzeTrends historical_data }
  { score2 with recommendations := generateRecommendations score2 }

/-- Projection of a `HealthMetric` onto its non-timestamp fields. -/
def HealthMetric.stripTimestamp (m : HealthMetric) :
    String × HealthCategory × ℚ × ℚ × String × String :=
  (m.name, m.category, m.value, m.weight, m.status, m.trend)

/-- Modelled from the spec: the evolution formula as §4.1 states it,
`min(1.0, 0.8 + 0.2 * mean(raw category scores))` over the FOUR raw
category scores, kept for comparison with `calculateEvolutionHealth`. -/
def specEvolutionFormula (s c p sec : ℚ) : ℚ :=
  min 1 (8/10 + 2/10 * ((s + c + p + sec) / 4))

/-- A `validation_result` carrying exactly the four raw category scores. -/
def rawInput (s c p sec : ℚ) : ValidationResult :=
  { health_metrics := some [("structural_health", s), ("content_health", c),
      ("process_health", p), ("security_health", sec)] }

/-- Scenario A input: all four raw category scores 1.0 (no other key). -/
def scenarioAInput : ValidationResult := rawInput 1 1 1 1

/-- A validation result whose `health_metrics` mapping is empty. -/
def emptyMetricsInput : ValidationResult := { health_metrics := some [] }

/-- Four zero raw category scores together with a negative
`overall_health` entry (the engine does not validate input ranges). -/
def negativeOverallInput : ValidationResult :=
  { health_metrics := some [("structural_health", 0), ("content_health", 0),
      ("process_health", 0), ("security_health", 0), ("overall_health", -10)] }

/-- A persisted snapshot with timestamp 7. -/
def snapshotA : HistoryEntry :=
  { timestamp := 7, overall_score := 0, compliance_level := "basic",
    health_grade := "F", category_scores := [], trend_analysis := [] }

/-- A persisted snapshot with timestamp 8, distinct from `snapshotA`. -/
def snapshotB : HistoryEntry :=
  { timestamp := 8, overall_score := 1, compliance_level := "exemplary",
    health_grade := "A+", category_scores := [], trend_analysis := [] }

/-- A two-entry history whose structural category score falls from 1 to 0
(declining) while the overall score stays flat (stable). -/
def decliningStructuralHistory : List HistoryEntry :=
  [{ timestamp := 0, overall_score := 0, compliance_level := "basic",
     health_grade := "F", category_scores := [("structural_health", 1)],
     trend_analysis := [] },
   { timestamp := 1, overall_score := 0, compliance_level := "basic",
     health_grade := "F", category_scores := [("structural_health", 0)],
     trend_analysis := [] }]

/-- A `ComplianceScore` whose overall trend is classified improving. -/
def improvingScore : ComplianceScore :=
  { overall_score := 1/2, category_scores := [], metrics := [],
    compliance_level := "basic", health_grade := "F",
    trend_analysis := [("overall", "improving")], recommendations := [] }

end ComplianceScorer

open ComplianceScorer

/-- C1, counterexample: on the Scenario A input (all four raw category
scores 1.0 and no other key in the mapping), the engine's evolution score
is 24/25 = 0.96, whereas the spec's formula over the four raw scores
yields 1.0 — the code averages over five values (the four raw scores plus
`overall_health`, defaulting to 0.0), not four. -/
theorem evolution_differs_from_four_score_mean :
    calculateEvolutionHealth (extractBaseMetrics scenarioAInput) = 24/25 ∧
    specEvolutionFormula 1 1 1 1 = 1 ∧
    calculateEvolutionHealth (extractBaseMetrics scenarioAInput) ≠
      specEvolutionFormula 1 1 1 1 := by
  have h1 : calculateEvolutionHealth (extractBaseMetrics scenarioAInput) = 24/25 := by
    simp [calculateEvolutionHealth, extractBaseMetrics, BaseMetrics.values, lookupD,
      scenarioAInput, rawInput]
    norm_num [min_def]
  have h2 : specEvolutionFormula 1 1 1 1 = 1 := by
    norm_num [specEvolutionFormula, min_def]
  refine ⟨h1, h2, ?_⟩
  rw [h1, h2]
  norm_num

/-- C1, amended: the evolution category score equals
`min(1.0, 0.8 + 0.2 * mean)` where the mean is over the FIVE extracted
base metrics (the four raw category scores plus `overall_health`, each
defaulting to 0.0); on the Scenario A input (four raw scores 1.0, no
`overall_health` key) evolution = 0.96, the overall score = 0.994, and
the run still yields compliance_level = "exemplary" and
health_grade = "A+". -/
theorem evolution_is_capped_five_value_mean :
    (∀ vr : ValidationResult,
      calculateEvolutionHealth (extractBaseMetrics vr) =
        min 1 (8/10 + 2/10 *
          (((extractBaseMetrics vr).structural_health +
            (extractBaseMetrics vr).content_health +
            (extractBaseMetrics vr).process_health +
            (extractBaseMetrics vr).security_health +
            (extractBaseMetrics vr).overall_health) / 5))) ∧
    calculateEvolutionHealth (extractBaseMetrics scenarioAInput) = 24/25 ∧
    (calculateComplianceScore 0 scenarioAInput []).overall_score = 497/500 ∧
    (calculateComplianceScore 0 scenarioAInput []).compliance_level = "exemplary" ∧
    (calculateComplianceScore 0 scenarioAInput []).health_grade = "A+" := by
  refine ⟨?_, ?_, ?_, ?_, ?_⟩
  · intro vr
    simp only [calculateEvolutionHealth, BaseMetrics.values, List.sum_cons,
      List.sum_nil]
    congr 1
    ring
  · simp [calculateEvolutionHealth, extractBaseMetrics, BaseMetrics.values, lookupD,
      scenarioAInput, rawInput]
    norm_num [min_def]
  · simp [calculateComplianceScore, overallScore, metricDefinitions,
      calculateCategoryScore, calculateEvolutionHealth, extractBaseMetrics,
      BaseMetrics.values, BaseMetrics.find?, lookupD, scenarioAInput, rawInput,
      structuralHealthDef, contentHealthDef, processHealthDef, securityHealthDef,
      evolutionHealthDef]
    norm_num [min_def]
  · simp [calculateComplianceScore, determineComplianceLevel, overallScore,
      metricDefinitions, calculateCategoryScore, calculateEvolutionHealth,
      extractBaseMetrics, BaseMetrics.values, BaseMetrics.find?, lookupD,
      scenarioAInput, rawInput, structuralHealthDef, contentHealthDef,
      processHealthDef, securityHealthDef, evolutionHealthDef]
    norm_num [min_def]
  · simp [calculateComplianceScore, calculateHealthGrade, overallScore,
      metricDefinitions, calculateCategoryScore, calculateEvolutionHealth,
      extractBaseMetrics, BaseMetrics.values, BaseMetrics.find?, lookupD,
      scenarioAInput, rawInput, structuralHealthDef, contentHealthDef,
      processHealthDef, securityHealthDef, evolutionHealthDef]
    norm_num [min_def]

/-- C2, counterexample: running the engine on all-defaulted raw metrics
with a history whose structural category score falls from 1 to 0 produces
a structural metric with status "critical" and trend "declining", yet the
recommendations contain only the urgent flag for it — the declining-trend
investigate flag is absent, because the per-metric rules are an
if/elif/elif chain, not independent checks. -/
theorem critical_declining_metric_gets_no_investigate_flag :
    (calculateComplianceScore 0 emptyMetricsInput decliningStructuralHistory).metrics.map
        HealthMetric.stripTimestamp =
      [("structural_health", .structural, 0, 25/100, "critical", "declining"),
       ("content_health", .content, 0, 25/100, "critical", "stable"),
       ("process_health", .process, 0, 20/100, "critical", "stable"),
       ("security_health", .security, 0, 15/100, "critical", "stable"),
       ("evolution_health", .evolution, 4/5, 15/100, "excellent", "stable")] ∧
    Recommendation.criticalAttention "structural_health" 0 ∈
      (calculateComplianceScore 0 emptyMetricsInput decliningStructuralHistory).recommendations ∧
    Recommendation.decliningInvestigate "structural_health" ∉
      (calculateComplianceScore 0 emptyMetricsInput decliningStructuralHistory).recommendations := by
  refine ⟨?_, ?_, ?_⟩
  · simp [calculateComplianceScore, overallScore, metricDefinitions,
      calculateCategoryScore, calculateEvolutionHealth, extractBaseMetrics,
      BaseMetrics.values, BaseMetrics.find?, lookupD, lookupStrD,
      emptyMetricsInput, decliningStructuralHistory, analyzeTrends, takeLast,
      adjustScoreForTrends, generateRecommendations, metricRecommendations,
      determineStatus, determineComplianceLevel, calculateHealthGrade,
      HealthMetric.stripTimestamp, structuralHealthDef, contentHealthDef,
      processHealthDef, securityHealthDef, evolutionHealthDef, min_def]
    norm_num
  · simp [calculateComplianceScore, overallScore, metricDefinitions,
      calculateCategoryScore, calculateEvolutionHealth, extractBaseMetrics,
      BaseMetrics.values, BaseMetrics.find?, lookupD, lookupStrD,
      emptyMetricsInput, decliningStructuralHistory, analyzeTrends, takeLast,
      adjustScoreForTrends, generateRecommendations, metricRecommendations,
      determineStatus, determineComplianceLevel, calculateHealthGrade,
      HealthMetric.stripTimestamp, structuralHealthDef, contentHealthDef,
      processHealthDef, securityHealthDef, evolutionHealthDef, min_def]
    norm_num
  · simp [calculateComplianceScore, overallScore, metricDefinitions,
      calculateCategoryScore, calculateEvolutionHealth, extractBaseMetrics,
      BaseMetrics.values, BaseMetrics.find?, lookupD, lookupStrD,
      emptyMetricsInput, decliningStructuralHistory, analyzeTrends, takeLast,
      adjustScoreForTrends, generateRecommendations, metricRecommendations,
      determineStatus, determineComplianceLevel, calculateHealthGrade,
      HealthMetric.stripTimestamp, structuralHealthDef, contentHealthDef,
      processHealthDef, securityHealthDef, evolutionHealthDef, min_def]
    norm_num
    decide

/-- C2, amended: the per-metric recommendation rules are an exclusive
if/elif/elif chain, so the declining-trend investigate flag is only
emitted when the status is neither "critical" nor "poor"; a metric with
status "critical" and trend "declining" contributes exactly the urgent
flag and nothing else. -/
theorem critical_declining_metric_yields_only_urgent_flag
    (m : HealthMetric) (hstatus : m.status = "critical")
    (_htrend : m.trend = "declining") :
    metricRecommendations m = [Recommendation.criticalAttention m.name m.value] := by
  simp [metricRecommendations, hstatus]

/-- C2, witness: the amended per-metric rule evaluated on the concrete
critical-and-declining structural metric of the counterexample run. -/
theorem critical_declining_metric_yields_only_urgent_flag_witness :
    metricRecommendations
      { name := "structural_health", category := .structural, value := 0,
        weight := 25/100, status := "critical", trend := "declining",
        last_updated := 0 } =
      [Recommendation.criticalAttention "structural_health" 0] :=
  critical_declining_metric_yields_only_urgent_flag _ rfl rfl

set_option maxRecDepth 4096 in
/-- C3, counterexample: the history store is NOT unconditionally
append-only — with 100 snapshots already stored, appending one more
deletes the oldest: the stored list still has length 100 and now contains
only 99 copies of the snapshot that previously filled it. -/
theorem history_append_drops_oldest_at_capacity :
    (List.replicate 100 snapshotA).length = 100 ∧
    (List.replicate 100 snapshotA).count snapshotA = 100 ∧
    (saveToHistory (List.replicate 100 snapshotA) snapshotB).length = 100 ∧
    (saveToHistory (List.replicate 100 snapshotA) snapshotB).count snapshotA = 99 := by
  refine ⟨by decide, by decide, ?_, ?_⟩ <;> decide

/-- C3, amended: appending a snapshot preserves every previously stored
snapshot whenever the history holds fewer than 100 snapshots (the store
keeps only the most recent 100: at capacity the oldest entries are
dropped). -/
theorem history_append_preserves_below_capacity
    (history : List HistoryEntry) (entry : HistoryEntry)
    (h : history.length < 100) :
    saveToHistory history entry = history ++ [entry] := by
  have hlen : (history ++ [entry]).length - 100 = 0 := by
    simp only [List.length_append, List.length_cons, List.length_nil]
    omega
  simp only [saveToHistory, takeLast, hlen, List.drop_zero]

/-- C3, witness: the amended preservation theorem applied to the empty
history. -/
theorem history_append_preserves_below_capacity_witness :
    ([] : List HistoryEntry).length < 100 ∧
    saveToHistory [] snapshotB = [snapshotB] :=
  ⟨by decide, history_append_preserves_below_capacity [] snapshotB (by decide)⟩

/-- C4, counterexample: with an EMPTY history list the engine never calls
the trend analyzer (`if historical_data:` is falsy), so `trend_analysis`
is the empty mapping, not `{"overall": "insufficient_data"}`. -/
theorem empty_history_yields_empty_trend_analysis :
    (calculateComplianceScore 0 emptyMetricsInput []).trend_analysis = [] ∧
    ([] : List (String × String)) ≠ [("overall", "insufficient_data")] := by
  exact ⟨rfl, by simp⟩

/-- C4, amended: with exactly one history entry `trend_analysis` is
`{"overall": "insufficient_data"}` and contains no category key, and no
trend adjustment is applied to the overall score; with an empty history
`trend_analysis` is the empty mapping and the score is likewise
unadjusted. -/
theorem single_entry_history_insufficient_data
    (now : Nat) (vr : ValidationResult) (e : HistoryEntry) :
    (calculateComplianceScore now vr [e]).trend_analysis =
      [("overall", "insufficient_data")] ∧
    (calculateComplianceScore now vr [e]).overall_score =
      overallScore (extractBaseMetrics vr) ∧
    (calculateComplianceScore now vr []).trend_analysis = [] ∧
    (calculateComplianceScore now vr []).overall_score =
      overallScore (extractBaseMetrics vr) := by
  exact ⟨rfl, rfl, rfl, rfl⟩

/-- C5, counterexample: on an empty raw-metrics mapping the evolution
category does NOT default to 0.0: the engine computes
`min(1.0, 0.8 + 0.2 * 0) = 0.8` for it, while the other four categories
default to 0.0. -/
theorem empty_metrics_evolution_is_not_zero :
    (calculateComplianceScore 0 emptyMetricsInput []).category_scores =
      [("structural_health", 0), ("content_health", 0), ("process_health", 0),
       ("security_health", 0), ("evolution_health", 4/5)] ∧
    (4/5 : ℚ) ≠ 0 := by
  constructor
  · simp [calculateComplianceScore, metricDefinitions, calculateCategoryScore,
      calculateEvolutionHealth, extractBaseMetrics, BaseMetrics.values,
      BaseMetrics.find?, lookupD, emptyMetricsInput, structuralHealthDef,
      contentHealthDef, processHealthDef, securityHealthDef, evolutionHealthDef,
      min_def]
    norm_num
  · norm_num

/-- C5, amended: if the raw-metrics mapping is empty or absent, the four
measured categories each default to 0.0 and the evolution category
scores 0.8; the computation is total (the engine never raises),
independent of the timestamp and of the supplied history. -/
theorem empty_metrics_category_defaults
    (now : Nat) (h : List HistoryEntry) :
    (calculateComplianceScore now { health_metrics := none } h).category_scores =
      [("structural_health", 0), ("content_health", 0), ("process_health", 0),
       ("security_health", 0), ("evolution_health", 4/5)] ∧
    (calculateComplianceScore now { health_metrics := some [] } h).category_scores =
      [("structural_health", 0), ("content_health", 0), ("process_health", 0),
       ("security_health", 0), ("evolution_health", 4/5)] := by
  cases h <;>
    constructor <;>
    simp [calculateComplianceScore, adjustScoreForTrends, metricDefinitions,
      calculateCategoryScore, calculateEvolutionHealth, extractBaseMetrics,
      BaseMetrics.values, BaseMetrics.find?, lookupD, structuralHealthDef,
      contentHealthDef, processHealthDef, securityHealthDef, evolutionHealthDef,
      min_def] <;>
    norm_num

/-- C6: on an input carrying exactly the four raw category scores, each
in [0,1], the overall score equals the weighted sum of the five category
scores with the configured weights 0.25/0.25/0.20/0.15/0.15, and lies in
[0,1]. -/
theorem overall_score_is_weighted_sum_in_unit_interval
    (s c p sec : ℚ) (hs0 : 0 ≤ s) (hs1 : s ≤ 1) (hc0 : 0 ≤ c) (hc1 : c ≤ 1)
    (hp0 : 0 ≤ p) (hp1 : p ≤ 1) (hq0 : 0 ≤ sec) (hq1 : sec ≤ 1) :
    overallScore (extractBaseMetrics (rawInput s c p sec)) =
      s * (25/100) + c * (25/100) + p * (20/100) + sec * (15/100) +
        calculateEvolutionHealth (extractBaseMetrics (rawInput s c p sec)) * (15/100) ∧
    0 ≤ overallScore (extractBaseMetrics (rawInput s c p sec)) ∧
    overallScore (extractBaseMetrics (rawInput s c p sec)) ≤ 1 := by
  have hbase : extractBaseMetrics (rawInput s c p sec) =
      { structural_health := s, content_health := c, process_health := p,
        security_health := sec, overall_health := 0 } := by
    simp [extractBaseMetrics, rawInput, lookupD]
  have hsum : overallScore (extractBaseMetrics (rawInput s c p sec)) =
      s * (25/100) + c * (25/100) + p * (20/100) + sec * (15/100) +
        calculateEvolutionHealth (extractBaseMetrics (rawInput s c p sec)) * (15/100) := by
    rw [hbase]
    simp [overallScore, metricDefinitions, calculateCategoryScore, BaseMetrics.find?,
      structuralHealthDef, contentHealthDef, processHealthDef, securityHealthDef,
      evolutionHealthDef]
    ring
  have he0 : 0 ≤ calculateEvolutionHealth (extractBaseMetrics (rawInput s c p sec)) := by
    rw [hbase]
    simp only [calculateEvolutionHealth, BaseMetrics.values, List.sum_cons, List.sum_nil]
    refine le_min (by norm_num) (by linarith)
  have he1 : calculateEvolutionHealth (extractBaseMetrics (rawInput s c p sec)) ≤ 1 := by
    simp only [calculateEvolutionHealth]
    exact min_le_left _ _
  refine ⟨hsum, ?_, ?_⟩ <;> rw [hsum] <;> nlinarith [he0, he1]

/-- C6, witness: the weighted-sum and bounds theorem at the all-ones raw
score vector. -/
theorem overall_score_is_weighted_sum_in_unit_interval_witness :
    overallScore (extractBaseMetrics (rawInput 1 1 1 1)) =
      1 * (25/100) + 1 * (25/100) + 1 * (20/100) + 1 * (15/100) +
        calculateEvolutionHealth (extractBaseMetrics (rawInput 1 1 1 1)) * (15/100) ∧
    0 ≤ overallScore (extractBaseMetrics (rawInput 1 1 1 1)) ∧
    overallScore (extractBaseMetrics (rawInput 1 1 1 1)) ≤ 1 :=
  overall_score_is_weighted_sum_in_unit_interval 1 1 1 1 (by norm_num) (by norm_num)
    (by norm_num) (by norm_num) (by norm_num) (by norm_num) (by norm_num) (by norm_num)

/-- C7: the trend adjustment multiplies the overall score by 1.02 capped
at 1.0 on "improving", by 0.98 floored at 0.0 on "declining", leaves it
unchanged on "stable" or "insufficient_data", and for a pre-adjustment
score in [0,1] the adjusted score stays in [0,1]. -/
theorem trend_adjustment_formula_and_bounds (score : ComplianceScore)
    (h0 : 0 ≤ score.overall_score) (h1 : score.overall_score ≤ 1) :
    (lookupStrD score.trend_analysis "overall" "stable" = "improving" →
      (adjustScoreForTrends score).overall_score =
        min 1 (score.overall_score * (102/100))) ∧
    (lookupStrD score.trend_analysis "overall" "stable" = "declining" →
      (adjustScoreForTrends score).overall_score =
        max 0 (score.overall_score * (98/100))) ∧
    (lookupStrD score.trend_analysis "overall" "stable" = "stable" ∨
        lookupStrD score.trend_analysis "overall" "stable" = "insufficient_data" →
      (adjustScoreForTrends score).overall_score = score.overall_score) ∧
    0 ≤ (adjustScoreForTrends score).overall_score ∧
    (adjustScoreForTrends score).overall_score ≤ 1 := by
  refine ⟨?_, ?_, ?_, ?_⟩
  · intro himp
    simp [adjustScoreForTrends, himp]
  · intro hdec
    simp [adjustScoreForTrends, hdec]
  · rintro (hst | hins)
    · simp [adjustScoreForTrends, hst]
    · simp [adjustScoreForTrends, hins]
  · simp only [adjustScoreForTrends]
    split_ifs with ha hb
    · exact ⟨le_min (by norm_num) (by nlinarith), min_le_left _ _⟩
    · exact ⟨le_max_left 0 _, max_le (by norm_num) (by nlinarith)⟩
    · exact ⟨h0, h1⟩

/-- C7, witness: the adjustment theorem at a concrete score 1/2 whose
overall trend is "improving". -/
theorem trend_adjustment_formula_and_bounds_witness :
    (lookupStrD improvingScore.trend_analysis "overall" "stable" = "improving" →
      (adjustScoreForTrends improvingScore).overall_score =
        min 1 (improvingScore.overall_score * (102/100))) ∧
    (lookupStrD improvingScore.trend_analysis "overall" "stable" = "declining" →
      (adjustScoreForTrends improvingScore).overall_score =
        max 0 (improvingScore.overall_score * (98/100))) ∧
    (lookupStrD improvingScore.trend_analysis "overall" "stable" = "stable" ∨
        lookupStrD improvingScore.trend_analysis "overall" "stable" = "insufficient_data" →
      (adjustScoreForTrends improvingScore).overall_score =
        improvingScore.overall_score) ∧
    0 ≤ (adjustScoreForTrends improvingScore).overall_score ∧
    (adjustScoreForTrends improvingScore).overall_score ≤ 1 :=
  trend_adjustment_formula_and_bounds improvingScore
    (by norm_num [improvingScore]) (by norm_num [improvingScore])

/-- C8: in every run with nonempty history, compliance_level and
health_grade are computed from the overall score BEFORE the trend
adjustment, while the returned overall_score field carries the
post-adjustment value. -/
theorem level_and_grade_derive_from_preadjustment_score
    (now : Nat) (vr : ValidationResult) (e : HistoryEntry)
    (t : List HistoryEntry) :
    (calculateComplianceScore now vr (e :: t)).compliance_level =
      determineComplianceLevel (overallScore (extractBaseMetrics vr)) ∧
    (calculateComplianceScore now vr (e :: t)).health_grade =
      calculateHealthGrade (overallScore (extractBaseMetrics vr)) ∧
    (calculateComplianceScore now vr (e :: t)).overall_score =
      (if lookupStrD (analyzeTrends (e :: t)) "overall" "stable" = "improving" then
        min 1 (overallScore (extractBaseMetrics vr) * (102/100))
      else if lookupStrD (analyzeTrends (e :: t)) "overall" "stable" = "declining" then
        max 0 (overallScore (extractBaseMetrics vr) * (98/100))
      else overallScore (extractBaseMetrics vr)) := by
  exact ⟨rfl, rfl, rfl⟩

/-- C9: the timestamp is the only source of run-to-run variation — two
runs on identical validation_result and identical history agree on every
field of the resulting ComplianceScore except the metrics' last_updated
timestamps. -/
theorem timestamp_does_not_influence_scoring
    (t1 t2 : Nat) (vr : ValidationResult) (hist : List HistoryEntry) :
    (calculateComplianceScore t1 vr hist).overall_score =
      (calculateComplianceScore t2 vr hist).overall_score ∧
    (calculateComplianceScore t1 vr hist).category_scores =
      (calculateComplianceScore t2 vr hist).category_scores ∧
    (calculateComplianceScore t1 vr hist).compliance_level =
      (calculateComplianceScore t2 vr hist).compliance_level ∧
    (calculateComplianceScore t1 vr hist).health_grade =
      (calculateComplianceScore t2 vr hist).health_grade ∧
    (calculateComplianceScore t1 vr hist).trend_analysis =
      (calculateComplianceScore t2 vr hist).trend_analysis ∧
    (calculateComplianceScore t1 vr hist).recommendations =
      (calculateComplianceScore t2 vr hist).recommendations ∧
    (calculateComplianceScore t1 vr hist).metrics.map HealthMetric.stripTimestamp =
      (calculateComplianceScore t2 vr hist).metrics.map HealthMetric.stripTimestamp := by
  cases hist <;> exact ⟨rfl, rfl, rfl, rfl, rfl, rfl, rfl⟩

/-- C10, counterexample: with the four raw category scores all 0
(non-negative) but `overall_health` = -10 also present in the mapping,
the evolution score is 0.4 — outside [0.8, 1.0] — its status is "poor",
not "excellent", and the pre-adjustment overall score is 0.06 < 0.12. -/
theorem negative_overall_health_breaks_evolution_band :
    calculateEvolutionHealth (extractBaseMetrics negativeOverallInput) = 2/5 ∧
    ¬ (4/5 ≤ (2/5 : ℚ)) ∧
    determineStatus (calculateEvolutionHealth (extractBaseMetrics negativeOverallInput))
      evolutionHealthDef.thresholds = "poor" ∧
    overallScore (extractBaseMetrics negativeOverallInput) = 3/50 ∧
    ¬ (12/100 ≤ (3/50 : ℚ)) := by
  have h : calculateEvolutionHealth (extractBaseMetrics negativeOverallInput) = 2/5 := by
    simp [calculateEvolutionHealth, extractBaseMetrics, BaseMetrics.values, lookupD,
      negativeOverallInput, min_def]
    norm_num
  refine ⟨h, by norm_num, ?_, ?_, by norm_num⟩
  · rw [h]
    norm_num [determineStatus, evolutionHealthDef]
  · simp [overallScore, metricDefinitions, calculateCategoryScore,
      calculateEvolutionHealth, extractBaseMetrics, BaseMetrics.values,
      BaseMetrics.find?, lookupD, negativeOverallInput, structuralHealthDef,
      contentHealthDef, processHealthDef, securityHealthDef, evolutionHealthDef,
      min_def]
    norm_num

/-- C10, amended: when EVERY value consumed from the raw-metrics mapping
(the four raw category scores and `overall_health`) is non-negative, the
evolution score lies in [0.8, 1.0], its status against the evolution
thresholds is "excellent" (cutoff 0.80), and the pre-adjustment overall
score is at least 0.12. -/
theorem evolution_in_upper_band_when_inputs_nonnegative
    (vr : ValidationResult)
    (h0 : 0 ≤ (extractBaseMetrics vr).structural_health)
    (h1 : 0 ≤ (extractBaseMetrics vr).content_health)
    (h2 : 0 ≤ (extractBaseMetrics vr).process_health)
    (h3 : 0 ≤ (extractBaseMetrics vr).security_health)
    (h4 : 0 ≤ (extractBaseMetrics vr).overall_health) :
    4/5 ≤ calculateEvolutionHealth (extractBaseMetrics vr) ∧
    calculateEvolutionHealth (extractBaseMetrics vr) ≤ 1 ∧
    determineStatus (calculateEvolutionHealth (extractBaseMetrics vr))
      evolutionHealthDef.thresholds = "excellent" ∧
    12/100 ≤ overallScore (extractBaseMetrics vr) := by
  have hev0 : 4/5 ≤ calculateEvolutionHealth (extractBaseMetrics vr) := by
    simp only [calculateEvolutionHealth, BaseMetrics.values, List.sum_cons,
      List.sum_nil]
    refine le_min (by norm_num) (by linarith)
  have hev1 : calculateEvolutionHealth (extractBaseMetrics vr) ≤ 1 := by
    simp only [calculateEvolutionHealth]
    exact min_le_left _ _
  have hst : determineStatus (calculateEvolutionHealth (extractBaseMetrics vr))
      evolutionHealthDef.thresholds = "excellent" := by
    simp only [determineStatus, evolutionHealthDef]
    rw [if_pos]
    exact le_trans (by norm_num) hev0
  have hov : 12/100 ≤ overallScore (extractBaseMetrics vr) := by
    simp [overallScore, metricDefinitions, calculateCategoryScore,
      BaseMetrics.find?, structuralHealthDef, contentHealthDef, processHealthDef,
      securityHealthDef, evolutionHealthDef]
    linarith [hev0]
  exact ⟨hev0, hev1, hst, hov⟩

/-- C10, witness: the amended theorem at the all-zero raw score input
(each consumed value 0): evolution = 0.8, status "excellent", overall
score 0.12. -/
theorem evolution_in_upper_band_when_inputs_nonnegative_witness :
    4/5 ≤ calculateEvolutionHealth (extractBaseMetrics emptyMetricsInput) ∧
    calculateEvolutionHealth (extractBaseMetrics emptyMetricsInput) ≤ 1 ∧
    determineStatus (calculateEvolutionHealth (extractBaseMetrics emptyMetricsInput))
      evolutionHealthDef.thresholds = "excellent" ∧
    12/100 ≤ overallScore (extractBaseMetrics emptyMetricsInput) :=
  evolution_in_upper_band_when_inputs_nonnegative emptyMetricsInput
    (by norm_num [extractBaseMetrics, lookupD, emptyMetricsInput])
    (by norm_num [extractBaseMetrics, lookupD, emptyMetricsInput])
    (by norm_num [extractBaseMetrics, lookupD, emptyMetricsInput])
    (by norm_num [extractBaseMetrics, lookupD, emptyMetricsInput])
    (by norm_num [extractBaseMetrics, lookupD, emptyMetricsInput])
